import Mathlib

/-!
Shallow embedding of the klaviyo-shopify-integration serverless endpoints.

Each source file under `api/` (and the two unnamed source files) is embedded
in its own namespace.  JavaScript JSON values are modelled by the inductive
`JVal`; optional chaining (`a?.b?.[0]`) becomes `Option`-chaining, JS
truthiness/`||`/`??` become the explicit helpers below.  Downstream HTTP is
modelled by an oracle `fetch : String → KResponse` keyed by the full request
URL; every handler returns, besides status/headers/body, the ordered list of
downstream URLs it requested.
-/

/-- JSON values as produced/consumed by the handlers. -/
inductive JVal where
  | null
  | bool (b : Bool)
  | num (n : Nat)
  | str (s : String)
  | arr (items : List JVal)
  | obj (fields : List (String × JVal))

/-- Field access on a JSON object; `none` models JS `undefined`
(also the result of optional chaining through a non-object). -/
def JVal.getField : JVal → String → Option JVal
  | .obj fs, k => fs.lookup k
  | _, _ => none

/-- Index access on a JSON array (`a?.[i]`). -/
def JVal.getIdx : JVal → Nat → Option JVal
  | .arr xs, i => xs.get? i
  | _, _ => none

/-- JavaScript truthiness of a JSON value. -/
def JVal.truthy : JVal → Bool
  | .null => false
  | .bool b => b
  | .num n => n ≠ 0
  | .str s => s ≠ ""
  | .arr _ => true
  | .obj _ => true

/-- Extract a JS string value (`none` when the value is absent or not a string). -/
def jvalOptStr : Option JVal → Option String
  | some (.str s) => some s
  | _ => none

/-- JS `x || fallback` on an optional string: `undefined`/`null` and `""` are falsy. -/
def jsOrStr (a : Option String) (b : String) : String :=
  match a with
  | some s => if s = "" then b else s
  | none => b

/-- JS `x || null` on a JSON value chain. -/
def jsOrNullJ (o : Option JVal) : JVal :=
  match o with
  | some v => if v.truthy then v else .null
  | none => .null

/-- JS `if (x)` guard on an optional value: keep it only when truthy. -/
def jsTruthyOpt (o : Option JVal) : Option JVal :=
  o.bind (fun v => if v.truthy then some v else none)

/-- JS truthiness of an optional string (handlers destructure request
fields that may be absent). -/
def truthy : Option String → Bool
  | none => false
  | some s => s ≠ ""

/-- String interpolation of a possibly-undefined JS string. -/
def jsTemplate : Option String → String
  | some s => s
  | none => "undefined"

/-- `List.isPrefixOf`-based substring test: `listContainsSub pat l` is true
iff `pat` occurs contiguously in `l`.  Mirrors JS `String.prototype.includes`. -/
def listContainsSub (pat : List Char) : List Char → Bool
  | [] => pat.isPrefixOf []
  | c :: cs => pat.isPrefixOf (c :: cs) || listContainsSub pat cs

/-- JS `s.includes(pat)`. -/
def strIncludes (s pat : String) : Bool :=
  listContainsSub pat.data s.data

/-- `response.ok` of the Fetch API: status in the range 200-299. -/
def respOk (status : Nat) : Bool :=
  200 ≤ status && status ≤ 299

/-- A downstream (Klaviyo) HTTP response: status, `content-type` header,
`statusText`, and the parsed JSON body (`none` when `response.json()` throws). -/
structure KResponse where
  status : Nat
  contentType : Option String := none
  statusText : String := ""
  json : Option JVal := none

/-- The environment variables the handlers read from `process.env`. -/
structure Env where
  privateKey : Option String := none
  publicKey : Option String := none
  listId : Option String := none

/-- Query parameters of an incoming request. -/
structure QueryParams where
  email : Option String := none
  shopifyId : Option String := none
  debug : Option String := none

/-- JSON body fields of an incoming request (already parsed). -/
structure BodyParams where
  email : Option String := none
  shopifyId : Option String := none
  marketing_preference : Option String := none
  firstName : Option String := none
  lastName : Option String := none
  listId : Option String := none
  source : Option String := none
  properties : Option JVal := none

/-- An incoming HTTP request as seen by a handler. -/
structure Request where
  method : String
  query : QueryParams := {}
  body : BodyParams := {}

/-- What a handler produced: HTTP status, response headers set via
`res.setHeader`, JSON body (`none` models `res.end()` with no body), and the
ordered list of downstream URLs fetched. -/
structure HResult where
  status : Nat
  headers : List (String × String) := []
  body : Option (List (String × JVal)) := none
  calls : List String := []

def KLAVIYO_API_BASE : String := "https://a.klaviyo.com/api"

def KLAVIYO_API_VERSION : String := "2025-01-15"

/-- Characters `encodeURIComponent` leaves unescaped. -/
def isUnreservedURI (c : Char) : Bool :=
  c.isAlphanum || c = '-' || c = '_' || c = '.' || c = '!' || c = '~' ||
    c = '*' || c = Char.ofNat 39 || c = '(' || c = ')'

/-- UTF-8 bytes of a character, as used by `encodeURIComponent`. -/
def utf8Bytes (c : Char) : List Nat :=
  let n := c.toNat
  if n < 128 then [n]
  else if n < 2048 then [192 + n / 64, 128 + n % 64]
  else if n < 65536 then [224 + n / 4096, 128 + (n / 64) % 64, 128 + n % 64]
  else [240 + n / 262144, 128 + (n / 4096) % 64, 128 + (n / 64) % 64, 128 + n % 64]

/-- Upper-case hex digit. -/
def hexDigit (n : Nat) : Char :=
  if n < 10 then Char.ofNat (48 + n) else Char.ofNat (55 + n)

/-- Percent-encoding of one byte. -/
def pctEncodeByte (b : Nat) : List Char :=
  ['%', hexDigit (b / 16), hexDigit (b % 16)]

/-- JS `encodeURIComponent`. -/
def encodeURIComponent (s : String) : String :=
  ⟨(s.data.map (fun c =>
      if isUnreservedURI c then [c] else (utf8Bytes c).flatMap pctEncodeByte)).flatten⟩

/-- `data.errors?.[0]` of a Klaviyo error body. -/
def firstError (data : JVal) : Option JVal :=
  (data.getField "errors").bind (fun e => e.getIdx 0)

/-- `data?.data?.[0]` of a Klaviyo collection body. -/
def dataHead (d : JVal) : Option JVal :=
  (d.getField "data").bind (fun a => a.getIdx 0)

/-- Valid preference values (`api/preferences.js` and the unnamed preferences
variant declare the same list). -/
def VALID_PREFERENCES : List String :=
  ["menswear", "womenswear", "both", "no_preference"]

/-- Maps UI radio values to the exact string written to Klaviyo's
`preference` property (unnamed preferences variant, `PREFERENCE_MAP`);
`no_preference` maps to JS `null`, modelled as `none`. -/
def PREFERENCE_MAP : List (String × Option String) :=
  [("menswear", some "\"Menswear\""),
   ("womenswear", some "\"Womenswear\""),
   ("both", some "\"Menswear\",\"Womenswear\""),
   ("no_preference", none)]

/-- `PREFERENCE_MAP[p] ?? null`. -/
def prefValue (p : String) : Option String :=
  (PREFERENCE_MAP.lookup p).join

/-- Reads a stored Klaviyo `preference` value and returns the UI radio value
(identical code in `api/profile.js` and the unnamed preferences variant). -/
def parsePreference (raw : Option String) : String :=
  match raw with
  | none => "no_preference"
  | some s =>
    if s = "" then "no_preference"
    else
      let hasMens := strIncludes s "\"Menswear\""
      let hasWomens := strIncludes s "\"Womenswear\""
      if hasMens && hasWomens then "both"
      else if hasMens then "menswear"
      else if hasWomens then "womenswear"
      else "no_preference"

/-- Serialize an optional JSON value as an object field; an absent (JS
`undefined`) value is dropped by `JSON.stringify`. -/
def optField (k : String) (o : Option JVal) : List (String × JVal) :=
  match o with
  | some v => [(k, v)]
  | none => []

/-- `properties.preference || null` handed to `parsePreference`: a truthy
string survives, anything else becomes null.  (A truthy non-string value
would make the JS `raw.includes` call throw; such values never occur for
this property, which the integration itself writes as string-or-null.) -/
def jsStrOrNull (o : Option JVal) : Option String :=
  match o with
  | some (.str s) => if s = "" then none else some s
  | _ => none

/-- JS template interpolation of a JSON value (`undefined` prints as such). -/
def jvalTemplate : Option JVal → String
  | some (.str s) => s
  | some .null => "null"
  | some (.bool b) => if b then "true" else "false"
  | some (.num n) => toString n
  | some (.arr _) => ""
  | some (.obj _) => "[object Object]"
  | none => "undefined"

/-- Message of the error thrown by `response.json()` on an unreadable body. -/
def jsonParseMsg : String := "Unexpected end of JSON input"

/-- JS regex `\s` (core whitespace plus vertical tab, form feed, NBSP, BOM). -/
def jsWhitespace (c : Char) : Bool :=
  c.isWhitespace || c = Char.ofNat 11 || c = Char.ofNat 12 ||
    c = Char.ofNat 160 || c = Char.ofNat 65279

/-- The character class `[^\s@]` of the email regex in `api/subscribe.js`. -/
def okChar (c : Char) : Bool :=
  !(jsWhitespace c) && c != '@'

/-- After at least one character of `[^\s@]+` before the dot: either the
literal `\.` followed by `[^\s@]+$`, or one more class character
(backtracking is modelled by trying both branches). -/
def matchDotOrMore : List Char → Bool
  | [] => false
  | c :: cs => (c = '.' && !cs.isEmpty && cs.all okChar) || (okChar c && matchDotOrMore cs)

/-- Matches `[^\s@]+\.[^\s@]+$`. -/
def matchBDC : List Char → Bool
  | [] => false
  | c :: cs => okChar c && matchDotOrMore cs

/-- After at least one character of the local part: either the literal `@`
followed by the domain pattern, or one more local character. -/
def matchAfterFirst : List Char → Bool
  | [] => false
  | c :: cs => (c = '@' && matchBDC cs) || (okChar c && matchAfterFirst cs)

/-- Matches `^[^\s@]+@[^\s@]+\.[^\s@]+$`. -/
def matchEmail : List Char → Bool
  | [] => false
  | c :: cs => okChar c && matchAfterFirst cs

/-- `emailRegex.test(email)` for the regex `^[^\s@]+@[^\s@]+\.[^\s@]+$`
of `api/subscribe.js`, as an explicit backtracking matcher. -/
def emailRegexTest (s : String) : Bool :=
  matchEmail s.data

namespace HealthApi

/-- `api/health.js` handler; `now` stands for `new Date().toISOString()`. -/
def handler (req : Request) (env : Env) (now : String) : HResult :=
  let hs := [("Access-Control-Allow-Origin", "*"),
             ("Access-Control-Allow-Methods", "GET, OPTIONS"),
             ("Access-Control-Allow-Headers", "Content-Type")]
  if req.method = "OPTIONS" then { status := 200, headers := hs }
  else
    let flag := fun (o : Option String) => if truthy o then "✓ Set" else "✗ Missing"
    { status := 200, headers := hs,
      body := some [("success", .bool true),
                    ("message", .str "Klaviyo API is running"),
                    ("timestamp", .str now),
                    ("environment", .obj
                      [("KLAVIYO_PRIVATE_API_KEY", .str (flag env.privateKey)),
                       ("KLAVIYO_PUBLIC_API_KEY", .str (flag env.publicKey)),
                       ("KLAVIYO_NEWSLETTER_LIST_ID", .str (flag env.listId))])] }

end HealthApi

namespace ListsApi

def corsHeaders : List (String × String) :=
  [("Access-Control-Allow-Origin", "*"),
   ("Access-Control-Allow-Methods", "GET, OPTIONS"),
   ("Access-Control-Allow-Headers", "Content-Type"),
   ("Content-Type", "application/json")]

/-- `api/lists.js` handler: fetches `/lists/` and reshapes `data.data`
without ever checking the downstream HTTP status. -/
def handler (req : Request) (env : Env) (fetch : String → KResponse) : HResult :=
  if req.method = "OPTIONS" then { status := 200, headers := corsHeaders }
  else
    let url := KLAVIYO_API_BASE ++ "/lists/"
    let r := fetch url
    match r.json with
    | none =>
      { status := 500, headers := corsHeaders,
        body := some [("success", .bool false), ("error", .str jsonParseMsg)],
        calls := [url] }
    | some data =>
      let raw := match data.getField "data" with
        | some (.arr xs) => xs
        | _ => []
      let lists := raw.map (fun l => JVal.obj
        (optField "id" (l.getField "id") ++
         optField "name" ((l.getField "attributes").bind (fun a => a.getField "name"))))
      { status := 200, headers := corsHeaders,
        body := some ([("success", .bool true), ("lists", .arr lists)] ++
          optField "configured_list_id" (env.listId.map .str)),
        calls := [url] }

end ListsApi

namespace SubscribeB

/-- `api/subscribe.js` request helper. -/
def klaviyoRequest (r : KResponse) : Except String JVal :=
  if r.status = 202 || r.status = 204 then .ok .null
  else match r.json with
    | none => .error jsonParseMsg
    | some data =>
      if !(respOk r.status) then
        .error (jsOrStr (jvalOptStr ((firstError data).bind (fun e => e.getField "detail")))
          ("Klaviyo error " ++ toString r.status))
      else .ok data

/-- `subscribeProfile`: posts a bulk-create job (its JSON payload does not
influence the modelled response, so only the call is recorded). -/
def subscribeProfile (fetch : String → KResponse) : Except String JVal × List String :=
  let url := KLAVIYO_API_BASE ++ "/profile-subscription-bulk-create-jobs/"
  (klaviyoRequest (fetch url), [url])

def corsHeaders : List (String × String) :=
  [("Access-Control-Allow-Origin", "*"),
   ("Access-Control-Allow-Methods", "POST, OPTIONS"),
   ("Access-Control-Allow-Headers", "Content-Type"),
   ("Content-Type", "application/json")]

def handler (req : Request) (_env : Env) (fetch : String → KResponse) : HResult :=
  if req.method = "OPTIONS" then { status := 200, headers := corsHeaders }
  else if req.method ≠ "POST" then
    { status := 405, headers := corsHeaders,
      body := some [("success", .bool false), ("error", .str "Method not allowed")] }
  else if !(truthy req.body.email) then
    { status := 400, headers := corsHeaders,
      body := some [("success", .bool false), ("error", .str "Email is required")] }
  else
    let email := (req.body.email).getD ""
    if !(emailRegexTest email) then
      { status := 400, headers := corsHeaders,
        body := some [("success", .bool false), ("error", .str "Invalid email format")] }
    else
      match subscribeProfile fetch with
      | (.error m, tr) =>
        { status := 500, headers := corsHeaders,
          body := some [("success", .bool false), ("error", .str m)], calls := tr }
      | (.ok _, tr) =>
        { status := 200, headers := corsHeaders,
          body := some [("success", .bool true),
                        ("message", .str "Successfully subscribed to newsletter"),
                        ("data", .obj [("email", .str email), ("subscribed", .bool true)])],
          calls := tr }

end SubscribeB

namespace SubscribeA

/-- Request helper of the subscribe variant stored alongside `api/health.js`:
202/204 yield `{ accepted: true }`, a non-JSON content type yields null or a
status-text error, and error bodies fall back from `detail` to `title`. -/
def klaviyoRequest (r : KResponse) : Except String JVal :=
  if r.status = 202 || r.status = 204 then .ok (.obj [("accepted", .bool true)])
  else
    let ctOk := match r.contentType with
      | none => false
      | some ct => strIncludes ct "application/"
    if !ctOk then
      if !(respOk r.status) then
        .error ("Klaviyo API error: " ++ toString r.status ++ " " ++ r.statusText)
      else .ok .null
    else match r.json with
      | none => .error jsonParseMsg
      | some data =>
        if !(respOk r.status) then
          .error ("Klaviyo API error: " ++
            jsOrStr (jvalOptStr ((firstError data).bind (fun e => e.getField "detail")))
              (jsOrStr (jvalOptStr ((firstError data).bind (fun e => e.getField "title")))
                "Unknown error"))
        else .ok data

def subscribeProfile (fetch : String → KResponse) : Except String JVal × List String :=
  let url := KLAVIYO_API_BASE ++ "/profile-subscription-bulk-create-jobs/"
  (klaviyoRequest (fetch url), [url])

def preflightHeaders : List (String × String) :=
  [("Access-Control-Allow-Origin", "*"),
   ("Access-Control-Allow-Methods", "POST, OPTIONS"),
   ("Access-Control-Allow-Headers", "Content-Type, Authorization")]

def corsHeaders : List (String × String) :=
  [("Access-Control-Allow-Origin", "*"),
   ("Access-Control-Allow-Methods", "POST, OPTIONS"),
   ("Access-Control-Allow-Headers", "Content-Type, Authorization"),
   ("Content-Type", "application/json")]

def handler (req : Request) (_env : Env) (fetch : String → KResponse) : HResult :=
  if req.method = "OPTIONS" then { status := 200, headers := preflightHeaders }
  else if req.method ≠ "POST" then
    { status := 405, headers := corsHeaders,
      body := some [("success", .bool false), ("error", .str "Method not allowed")] }
  else if !(truthy req.body.email) then
    { status := 400, headers := corsHeaders,
      body := some [("success", .bool false), ("error", .str "Email is required")] }
  else
    let email := (req.body.email).getD ""
    if !(emailRegexTest email) then
      { status := 400, headers := corsHeaders,
        body := some [("success", .bool false), ("error", .str "Invalid email format")] }
    else
      match subscribeProfile fetch with
      | (.error m, tr) =>
        { status := 500, headers := corsHeaders,
          body := some [("success", .bool false),
                        ("error", .str (jsOrStr (some m) "Failed to subscribe"))],
          calls := tr }
      | (.ok _, tr) =>
        { status := 200, headers := corsHeaders,
          body := some [("success", .bool true),
                        ("message", .str "Successfully subscribed to newsletter"),
                        ("data", .obj [("email", .str email), ("subscribed", .bool true)])],
          calls := tr }

end SubscribeA

namespace UnsubA

/-- Request helper of the first unsubscribe variant (unnamed source file,
first document): same shape as the subscribe variant next to `api/health.js`. -/
def klaviyoRequest (r : KResponse) : Except String JVal :=
  if r.status = 202 || r.status = 204 then .ok (.obj [("accepted", .bool true)])
  else
    let ctOk := match r.contentType with
      | none => false
      | some ct => strIncludes ct "application/"
    if !ctOk then
      if !(respOk r.status) then
        .error ("Klaviyo API error: " ++ toString r.status ++ " " ++ r.statusText)
      else .ok .null
    else match r.json with
      | none => .error jsonParseMsg
      | some data =>
        if !(respOk r.status) then
          .error ("Klaviyo API error: " ++
            jsOrStr (jvalOptStr ((firstError data).bind (fun e => e.getField "detail")))
              (jsOrStr (jvalOptStr ((firstError data).bind (fun e => e.getField "title")))
                "Unknown error"))
        else .ok data

def unsubscribeProfile (fetch : String → KResponse) : Except String JVal × List String :=
  let url := KLAVIYO_API_BASE ++ "/profile-subscription-bulk-delete-jobs/"
  (klaviyoRequest (fetch url), [url])

def preflightHeaders : List (String × String) :=
  [("Access-Control-Allow-Origin", "*"),
   ("Access-Control-Allow-Methods", "POST, OPTIONS"),
   ("Access-Control-Allow-Headers", "Content-Type, Authorization")]

def corsHeaders : List (String × String) :=
  [("Access-Control-Allow-Origin", "*"),
   ("Access-Control-Allow-Methods", "POST, OPTIONS"),
   ("Access-Control-Allow-Headers", "Content-Type, Authorization"),
   ("Content-Type", "application/json")]

def handler (req : Request) (_env : Env) (fetch : String → KResponse) : HResult :=
  if req.method = "OPTIONS" then { status := 200, headers := preflightHeaders }
  else if req.method ≠ "POST" then
    { status := 405, headers := corsHeaders,
      body := some [("success", .bool false), ("error", .str "Method not allowed")] }
  else if !(truthy req.body.email) then
    { status := 400, headers := corsHeaders,
      body := some [("success", .bool false), ("error", .str "Email is required")] }
  else
    let email := (req.body.email).getD ""
    match unsubscribeProfile fetch with
    | (.error m, tr) =>
      { status := 500, headers := corsHeaders,
        body := some [("success", .bool false),
                      ("error", .str (jsOrStr (some m) "Failed to unsubscribe"))],
        calls := tr }
    | (.ok _, tr) =>
      { status := 200, headers := corsHeaders,
        body := some [("success", .bool true),
                      ("message", .str "Successfully unsubscribed from newsletter"),
                      ("data", .obj [("email", .str email), ("unsubscribed", .bool true)])],
        calls := tr }

end UnsubA

namespace UnsubB

/-- Request helper of the second unsubscribe variant (unnamed source file,
second document). -/
def klaviyoRequest (r : KResponse) : Except String JVal :=
  if r.status = 202 || r.status = 204 then .ok .null
  else match r.json with
    | none => .error jsonParseMsg
    | some data =>
      if !(respOk r.status) then
        .error (jsOrStr (jvalOptStr ((firstError data).bind (fun e => e.getField "detail")))
          ("Klaviyo error " ++ toString r.status))
      else .ok data

def corsHeaders : List (String × String) :=
  [("Access-Control-Allow-Origin", "*"),
   ("Access-Control-Allow-Methods", "POST, OPTIONS"),
   ("Access-Control-Allow-Headers", "Content-Type"),
   ("Content-Type", "application/json")]

def handler (req : Request) (_env : Env) (fetch : String → KResponse) : HResult :=
  if req.method = "OPTIONS" then { status := 200, headers := corsHeaders }
  else if req.method ≠ "POST" then
    { status := 405, headers := corsHeaders,
      body := some [("success", .bool false), ("error", .str "Method not allowed")] }
  else if !(truthy req.body.email) then
    { status := 400, headers := corsHeaders,
      body := some [("success", .bool false), ("error", .str "Email is required")] }
  else
    let url := KLAVIYO_API_BASE ++ "/profile-subscription-bulk-delete-jobs/"
    match klaviyoRequest (fetch url) with
    | .error m =>
      { status := 500, headers := corsHeaders,
        body := some [("success", .bool false), ("error", .str m)], calls := [url] }
    | .ok _ =>
      { status := 200, headers := corsHeaders,
        body := some [("success", .bool true), ("unsubscribed", .bool true)],
        calls := [url] }

end UnsubB

namespace UnsubC

/-- `api/unsubscribe.js` request helper. -/
def klaviyoRequest (r : KResponse) : Except String JVal :=
  if r.status = 202 || r.status = 204 then .ok .null
  else match r.json with
    | none => .error jsonParseMsg
    | some data =>
      if !(respOk r.status) then
        .error (jsOrStr (jvalOptStr ((firstError data).bind (fun e => e.getField "detail")))
          "Klaviyo error")
      else .ok data

/-- `getProfileIdByEmail`: throws `Profile not found` when `res?.data?.length`
is falsy, otherwise returns `res.data[0].id`. -/
def getProfileIdByEmail (fetch : String → KResponse) (email : String) :
    Except String JVal × List String :=
  let url := KLAVIYO_API_BASE ++ "/profiles?filter=equals(email,\"" ++ email ++ "\")"
  match klaviyoRequest (fetch url) with
  | .error m => (.error m, [url])
  | .ok v =>
    match v.getField "data" with
    | some (.arr (p :: _)) => (.ok ((p.getField "id").getD .null), [url])
    | _ => (.error "Profile not found", [url])

/-- `api/unsubscribe.js` handler: sets no CORS headers, has no OPTIONS
branch, and a missing email is thrown and caught, producing a 500. -/
def handler (req : Request) (_env : Env) (fetch : String → KResponse) : HResult :=
  if req.method ≠ "POST" then
    { status := 405, headers := [], body := some [("success", .bool false)] }
  else if !(truthy req.body.email) then
    { status := 500, headers := [],
      body := some [("success", .bool false), ("error", .str "Email required")] }
  else
    match getProfileIdByEmail fetch ((req.body.email).getD "") with
    | (.error m, tr) =>
      { status := 500, headers := [],
        body := some [("success", .bool false), ("error", .str m)], calls := tr }
    | (.ok _, tr) =>
      let url2 := KLAVIYO_API_BASE ++ "/profile-subscriptions/bulk-unsubscribe"
      match klaviyoRequest (fetch url2) with
      | .error m =>
        { status := 500, headers := [],
          body := some [("success", .bool false), ("error", .str m)],
          calls := tr ++ [url2] }
      | .ok _ =>
        { status := 200, headers := [],
          body := some [("success", .bool true), ("unsubscribed", .bool true)],
          calls := tr ++ [url2] }

end UnsubC

namespace PrefsA

/-- `api/preferences.js` request helper.  Unlike every other variant it has
no 202/204 short-circuit: it goes straight to the content-type check and,
for an `application/*` content type, always reads the response body. -/
def klaviyoRequest (r : KResponse) : Except String JVal :=
  let ctOk := match r.contentType with
    | none => false
    | some ct => strIncludes ct "application/"
  if !ctOk then
    if !(respOk r.status) then
      .error ("Klaviyo API error: " ++ toString r.status ++ " " ++ r.statusText)
    else .ok .null
  else match r.json with
    | none => .error jsonParseMsg
    | some data =>
      if !(respOk r.status) then
        .error ("Klaviyo API error: " ++
          jsOrStr (jvalOptStr ((firstError data).bind (fun e => e.getField "detail")))
            (jsOrStr (jvalOptStr ((firstError data).bind (fun e => e.getField "title")))
              "Unknown error"))
      else .ok data

/-- `getProfileByEmail` of `api/preferences.js`: note the email is
URI-encoded once inside the filter and the whole filter is encoded again. -/
def getProfileByEmail (fetch : String → KResponse) (email : String) :
    Except String JVal × List String :=
  let encodedEmail := encodeURIComponent email
  let filter := "equals(email,\"" ++ encodedEmail ++ "\")"
  let url := KLAVIYO_API_BASE ++ "/profiles/?filter=" ++ encodeURIComponent filter
  ((klaviyoRequest (fetch url)).map (fun d => jsOrNullJ (dataHead d)), [url])

/-- `getProfileByShopifyId`: external-id filter first, then the
`properties.shopify_customer_id` fallback filter. -/
def getProfileByShopifyId (fetch : String → KResponse) (shopifyId : String) :
    Except String JVal × List String :=
  let filter := "equals(external_id,\"shopify_" ++ shopifyId ++ "\")"
  let url1 := KLAVIYO_API_BASE ++ "/profiles/?filter=" ++ encodeURIComponent filter
  match klaviyoRequest (fetch url1) with
  | .error m => (.error m, [url1])
  | .ok d =>
    match jsTruthyOpt (dataHead d) with
    | some p => (.ok p, [url1])
    | none =>
      let propertyFilter := "equals(properties.shopify_customer_id,\"" ++ shopifyId ++ "\")"
      let url2 := KLAVIYO_API_BASE ++ "/profiles/?filter=" ++ encodeURIComponent propertyFilter
      ((klaviyoRequest (fetch url2)).map (fun d2 => jsOrNullJ (dataHead d2)), [url1, url2])

/-- `updateProfilePreferences`: PATCH of the profile (the JSON payload
carries `marketing_preference` and a timestamp and does not influence the
modelled response). -/
def updateProfilePreferences (fetch : String → KResponse) (profileId : String) :
    Except String JVal × List String :=
  let url := KLAVIYO_API_BASE ++ "/profiles/" ++ profileId ++ "/"
  (klaviyoRequest (fetch url), [url])

/-- `createProfileWithPreferences`: POST to `/profiles/`. -/
def createProfileWithPreferences (fetch : String → KResponse) :
    Except String JVal × List String :=
  let url := KLAVIYO_API_BASE ++ "/profiles/"
  (klaviyoRequest (fetch url), [url])

def getPreferenceLabel (preference : Option String) : String :=
  let labels := [("menswear", "Men's Wear"), ("womenswear", "Women's Wear"),
                 ("both", "Both Men's & Women's"), ("no_preference", "No Preference")]
  jsOrStr (preference.bind (fun p => labels.lookup p)) "No Preference"

def formatPreferencesResponse (profile : JVal) : JVal :=
  if !profile.truthy then .null
  else
    let properties := (profile.getField "attributes").bind (fun a => a.getField "properties")
    let mp := jvalOptStr (properties.bind (fun pr => pr.getField "marketing_preference"))
    .obj [("marketing_preference", .str (jsOrStr mp "no_preference")),
          ("marketing_preference_label", .str (getPreferenceLabel mp)),
          ("updated_at", jsOrNullJ (properties.bind
            (fun pr => pr.getField "marketing_preference_updated_at")))]

def preflightHeaders : List (String × String) :=
  [("Access-Control-Allow-Origin", "*"),
   ("Access-Control-Allow-Methods", "GET, POST, OPTIONS"),
   ("Access-Control-Allow-Headers", "Content-Type, Authorization")]

def corsHeaders : List (String × String) :=
  [("Access-Control-Allow-Origin", "*"),
   ("Access-Control-Allow-Methods", "GET, POST, OPTIONS"),
   ("Access-Control-Allow-Headers", "Content-Type, Authorization"),
   ("Content-Type", "application/json")]

def newProfileData : JVal :=
  .obj [("marketing_preference", .str "no_preference"),
        ("marketing_preference_label", .str "No Preference"),
        ("updated_at", .null),
        ("isNewProfile", .bool true)]

def handler (req : Request) (_env : Env) (fetch : String → KResponse) : HResult :=
  if req.method = "OPTIONS" then { status := 200, headers := preflightHeaders }
  else if req.method = "GET" then
    if !(truthy req.query.email) && !(truthy req.query.shopifyId) then
      { status := 400, headers := corsHeaders,
        body := some [("success", .bool false),
                      ("error", .str "Either email or shopifyId query parameter is required")] }
    else
      let pr := if truthy req.query.email
        then getProfileByEmail fetch ((req.query.email).getD "")
        else getProfileByShopifyId fetch ((req.query.shopifyId).getD "")
      match pr with
      | (.error m, tr) =>
        { status := 500, headers := corsHeaders,
          body := some [("success", .bool false),
                        ("error", .str (jsOrStr (some m) "Internal server error"))],
          calls := tr }
      | (.ok profile, tr) =>
        if !profile.truthy then
          { status := 200, headers := corsHeaders,
            body := some [("success", .bool true), ("data", newProfileData)], calls := tr }
        else
          { status := 200, headers := corsHeaders,
            body := some [("success", .bool true),
                          ("data", formatPreferencesResponse profile)],
            calls := tr }
  else if req.method = "POST" then
    if !(truthy req.body.email) && !(truthy req.body.shopifyId) then
      { status := 400, headers := corsHeaders,
        body := some [("success", .bool false),
                      ("error", .str "Either email or shopifyId is required")] }
    else if truthy req.body.marketing_preference &&
        !(VALID_PREFERENCES.contains ((req.body.marketing_preference).getD "")) then
      { status := 400, headers := corsHeaders,
        body := some [("success", .bool false),
                      ("error", .str ("Invalid marketing_preference. Must be one of: " ++
                        String.intercalate ", " VALID_PREFERENCES))] }
    else
      let pr := if truthy req.body.email
        then getProfileByEmail fetch ((req.body.email).getD "")
        else getProfileByShopifyId fetch ((req.body.shopifyId).getD "")
      match pr with
      | (.error m, tr) =>
        { status := 500, headers := corsHeaders,
          body := some [("success", .bool false),
                        ("error", .str (jsOrStr (some m) "Internal server error"))],
          calls := tr }
      | (.ok profile, tr1) =>
        if !profile.truthy then
          if !(truthy req.body.email) then
            { status := 404, headers := corsHeaders,
              body := some [("success", .bool false),
                            ("error", .str "Profile not found. Email is required to create a new profile.")],
              calls := tr1 }
          else
            match createProfileWithPreferences fetch with
            | (.error m, tr2) =>
              { status := 500, headers := corsHeaders,
                body := some [("success", .bool false),
                              ("error", .str (jsOrStr (some m) "Internal server error"))],
                calls := tr1 ++ tr2 }
            | (.ok _, tr2) =>
              match getProfileByEmail fetch ((req.body.email).getD "") with
              | (.error m, tr3) =>
                { status := 500, headers := corsHeaders,
                  body := some [("success", .bool false),
                                ("error", .str (jsOrStr (some m) "Internal server error"))],
                  calls := tr1 ++ tr2 ++ tr3 }
              | (.ok p2, tr3) =>
                { status := 200, headers := corsHeaders,
                  body := some [("success", .bool true),
                                ("message", .str "Marketing preferences updated successfully"),
                                ("data", formatPreferencesResponse p2)],
                  calls := tr1 ++ tr2 ++ tr3 }
        else
          match updateProfilePreferences fetch (jvalTemplate (profile.getField "id")) with
          | (.error m, tr2) =>
            { status := 500, headers := corsHeaders,
              body := some [("success", .bool false),
                            ("error", .str (jsOrStr (some m) "Internal server error"))],
              calls := tr1 ++ tr2 }
          | (.ok _, tr2) =>
            match getProfileByEmail fetch
                (jvalTemplate ((profile.getField "attributes").bind
                  (fun a => a.getField "email"))) with
            | (.error m, tr3) =>
              { status := 500, headers := corsHeaders,
                body := some [("success", .bool false),
                              ("error", .str (jsOrStr (some m) "Internal server error"))],
                calls := tr1 ++ tr2 ++ tr3 }
            | (.ok p2, tr3) =>
              { status := 200, headers := corsHeaders,
                body := some [("success", .bool true),
                              ("message", .str "Marketing preferences updated successfully"),
                              ("data", formatPreferencesResponse p2)],
                calls := tr1 ++ tr2 ++ tr3 }
  else
    { status := 405, headers := corsHeaders,
      body := some [("success", .bool false), ("error", .str "Method not allowed")] }

end PrefsA

namespace PrefsB

/-- Request helper of the second preferences variant (unnamed source file):
202/204 short-circuit to null, then the content-type check, then the body. -/
def klaviyoRequest (r : KResponse) : Except String JVal :=
  if r.status = 202 || r.status = 204 then .ok .null
  else
    let ctOk := match r.contentType with
      | none => false
      | some ct => strIncludes ct "application/"
    if !ctOk then
      if !(respOk r.status) then
        .error ("Klaviyo API error: " ++ toString r.status)
      else .ok .null
    else match r.json with
      | none => .error jsonParseMsg
      | some data =>
        if !(respOk r.status) then
          .error (jsOrStr (jvalOptStr ((firstError data).bind (fun e => e.getField "detail")))
            ("Klaviyo error " ++ toString r.status))
        else .ok data

def getProfileByEmail (fetch : String → KResponse) (email : String) :
    Except String JVal × List String :=
  let filter := "equals(email,\"" ++ email ++ "\")"
  let url := KLAVIYO_API_BASE ++ "/profiles/?filter=" ++ encodeURIComponent filter
  ((klaviyoRequest (fetch url)).map (fun d => jsOrNullJ (dataHead d)), [url])

/-- `updateProfilePreferences`: PATCH whose payload stores
`prefValue marketing_preference` under the `preference` property. -/
def updateProfilePreferences (fetch : String → KResponse) (profileId : String) :
    Except String JVal × List String :=
  let url := KLAVIYO_API_BASE ++ "/profiles/" ++ profileId ++ "/"
  (klaviyoRequest (fetch url), [url])

def createProfileWithPreferences (fetch : String → KResponse) :
    Except String JVal × List String :=
  let url := KLAVIYO_API_BASE ++ "/profiles/"
  (klaviyoRequest (fetch url), [url])

def corsHeaders : List (String × String) :=
  [("Access-Control-Allow-Origin", "*"),
   ("Access-Control-Allow-Methods", "GET, POST, OPTIONS"),
   ("Access-Control-Allow-Headers", "Content-Type"),
   ("Content-Type", "application/json")]

def handler (req : Request) (_env : Env) (fetch : String → KResponse) : HResult :=
  if req.method = "OPTIONS" then { status := 200, headers := corsHeaders }
  else if req.method = "GET" then
    if !(truthy req.query.email) then
      { status := 400, headers := corsHeaders,
        body := some [("success", .bool false),
                      ("error", .str "email query parameter is required")] }
    else
      match getProfileByEmail fetch ((req.query.email).getD "") with
      | (.error m, tr) =>
        { status := 500, headers := corsHeaders,
          body := some [("success", .bool false), ("error", .str m)], calls := tr }
      | (.ok profile, tr) =>
        if !profile.truthy then
          { status := 200, headers := corsHeaders,
            body := some [("success", .bool true),
                          ("data", .obj [("marketing_preference", .str "no_preference"),
                                         ("isNewProfile", .bool true)])],
            calls := tr }
        else
          let raw := jsStrOrNull (((profile.getField "attributes").bind
            (fun a => a.getField "properties")).bind (fun p => p.getField "preference"))
          { status := 200, headers := corsHeaders,
            body := some [("success", .bool true),
                          ("data", .obj [("marketing_preference", .str (parsePreference raw))])],
            calls := tr }
  else if req.method = "POST" then
    if !(truthy req.body.email) && !(truthy req.body.shopifyId) then
      { status := 400, headers := corsHeaders,
        body := some [("success", .bool false),
                      ("error", .str "email or shopifyId is required")] }
    else if truthy req.body.marketing_preference &&
        !(VALID_PREFERENCES.contains ((req.body.marketing_preference).getD "")) then
      { status := 400, headers := corsHeaders,
        body := some [("success", .bool false),
                      ("error", .str ("Invalid marketing_preference. Must be one of: " ++
                        String.intercalate ", " VALID_PREFERENCES))] }
    else
      let pr := if truthy req.body.email
        then getProfileByEmail fetch ((req.body.email).getD "")
        else (.ok .null, [])
      match pr with
      | (.error m, tr) =>
        { status := 500, headers := corsHeaders,
          body := some [("success", .bool false), ("error", .str m)], calls := tr }
      | (.ok profile, tr1) =>
        if !profile.truthy then
          if !(truthy req.body.email) then
            { status := 404, headers := corsHeaders,
              body := some [("success", .bool false), ("error", .str "Profile not found")],
              calls := tr1 }
          else
            match createProfileWithPreferences fetch with
            | (.error m, tr2) =>
              { status := 500, headers := corsHeaders,
                body := some [("success", .bool false), ("error", .str m)],
                calls := tr1 ++ tr2 }
            | (.ok _, tr2) =>
              match getProfileByEmail fetch ((req.body.email).getD "") with
              | (.error m, tr3) =>
                { status := 500, headers := corsHeaders,
                  body := some [("success", .bool false), ("error", .str m)],
                  calls := tr1 ++ tr2 ++ tr3 }
              | (.ok p2, tr3) =>
                let raw := jsStrOrNull (((p2.getField "attributes").bind
                  (fun a => a.getField "properties")).bind (fun p => p.getField "preference"))
                { status := 200, headers := corsHeaders,
                  body := some [("success", .bool true),
                                ("message", .str "Preferences updated"),
                                ("data", .obj [("marketing_preference",
                                  .str (parsePreference raw))])],
                  calls := tr1 ++ tr2 ++ tr3 }
        else
          match updateProfilePreferences fetch (jvalTemplate (profile.getField "id")) with
          | (.error m, tr2) =>
            { status := 500, headers := corsHeaders,
              body := some [("success", .bool false), ("error", .str m)],
              calls := tr1 ++ tr2 }
          | (.ok _, tr2) =>
            let refetchEmail := if truthy req.body.email
              then (req.body.email).getD ""
              else jvalTemplate ((profile.getField "attributes").bind
                (fun a => a.getField "email"))
            match getProfileByEmail fetch refetchEmail with
            | (.error m, tr3) =>
              { status := 500, headers := corsHeaders,
                body := some [("success", .bool false), ("error", .str m)],
                calls := tr1 ++ tr2 ++ tr3 }
            | (.ok p2, tr3) =>
              let raw := jsStrOrNull (((p2.getField "attributes").bind
                (fun a => a.getField "properties")).bind (fun p => p.getField "preference"))
              { status := 200, headers := corsHeaders,
                body := some [("success", .bool true),
                              ("message", .str "Preferences updated"),
                              ("data", .obj [("marketing_preference",
                                .str (parsePreference raw))])],
                calls := tr1 ++ tr2 ++ tr3 }
  else
    { status := 405, headers := corsHeaders,
      body := some [("success", .bool false), ("error", .str "Method not allowed")] }

end PrefsB

namespace ProfileApi

/-- `api/profile.js` request helper (identical to the second preferences
variant's helper). -/
def klaviyoRequest (r : KResponse) : Except String JVal :=
  if r.status = 202 || r.status = 204 then .ok .null
  else
    let ctOk := match r.contentType with
      | none => false
      | some ct => strIncludes ct "application/"
    if !ctOk then
      if !(respOk r.status) then
        .error ("Klaviyo API error: " ++ toString r.status)
      else .ok .null
    else match r.json with
      | none => .error jsonParseMsg
      | some data =>
        if !(respOk r.status) then
          .error (jsOrStr (jvalOptStr ((firstError data).bind (fun e => e.getField "detail")))
            ("Klaviyo error " ++ toString r.status))
        else .ok data

def getProfileByEmail (fetch : String → KResponse) (email : String) :
    Except String JVal × List String :=
  let filter := "equals(email,\"" ++ email ++ "\")"
  let url := KLAVIYO_API_BASE ++ "/profiles/?filter=" ++ encodeURIComponent filter ++
    "&additional-fields[profile]=subscriptions"
  ((klaviyoRequest (fetch url)).map (fun d => jsOrNullJ (dataHead d)), [url])

/-- `getProfileByShopifyId` of `api/profile.js`: external-id filter first,
then the `properties.shopify_customer_id` fallback filter; the first query's
hit short-circuits the second query. -/
def getProfileByShopifyId (fetch : String → KResponse) (shopifyId : String) :
    Except String JVal × List String :=
  let filter := "equals(external_id,\"shopify_" ++ shopifyId ++ "\")"
  let url1 := KLAVIYO_API_BASE ++ "/profiles/?filter=" ++ encodeURIComponent filter ++
    "&additional-fields[profile]=subscriptions"
  match klaviyoRequest (fetch url1) with
  | .error m => (.error m, [url1])
  | .ok d =>
    match jsTruthyOpt (dataHead d) with
    | some p => (.ok p, [url1])
    | none =>
      let fallbackFilter := "equals(properties.shopify_customer_id,\"" ++ shopifyId ++ "\")"
      let url2 := KLAVIYO_API_BASE ++ "/profiles/?filter=" ++
        encodeURIComponent fallbackFilter ++ "&additional-fields[profile]=subscriptions"
      ((klaviyoRequest (fetch url2)).map (fun d2 => jsOrNullJ (dataHead d2)), [url1, url2])

def createOrUpdateProfile (fetch : String → KResponse) :
    Except String JVal × List String :=
  let url := KLAVIYO_API_BASE ++ "/profiles/"
  (klaviyoRequest (fetch url), [url])

def updateProfile (fetch : String → KResponse) (profileId : String) :
    Except String JVal × List String :=
  let url := KLAVIYO_API_BASE ++ "/profiles/" ++ profileId ++ "/"
  (klaviyoRequest (fetch url), [url])

def formatProfileResponse (profile : JVal) : JVal :=
  if !profile.truthy then .null
  else
    let attrs := profile.getField "attributes"
    let subscriptions := attrs.bind (fun a => a.getField "subscriptions")
    let emailSub := subscriptions.bind (fun s => s.getField "email")
    let properties := attrs.bind (fun a => a.getField "properties")
    let marketing := emailSub.bind (fun e => e.getField "marketing")
    let emailConsent := jvalOptStr (marketing.bind (fun m => m.getField "consent"))
    let isSubscribed := emailConsent == some "SUBSCRIBED"
    let isUnsubscribed := emailConsent == some "UNSUBSCRIBED"
    let isNeverSubscribed := !(truthy emailConsent) || emailConsent == some "NEVER_SUBSCRIBED"
    let isSuppressed := emailConsent == some "SUPPRESSED"
    .obj (optField "id" (profile.getField "id") ++
          optField "email" (attrs.bind (fun a => a.getField "email")) ++
          optField "firstName" (attrs.bind (fun a => a.getField "first_name")) ++
          optField "lastName" (attrs.bind (fun a => a.getField "last_name")) ++
          [("subscription", .obj [("email", .obj (
             [("isSubscribed", .bool isSubscribed),
              ("isUnsubscribed", .bool isUnsubscribed),
              ("isNeverSubscribed", .bool isNeverSubscribed),
              ("isSuppressed", .bool isSuppressed),
              ("consent", .str (jsOrStr emailConsent "NEVER_SUBSCRIBED")),
              ("canSubscribe", .bool (isNeverSubscribed || isUnsubscribed))] ++
             optField "timestamp" (marketing.bind (fun m => m.getField "timestamp"))))]),
           ("preferences", .obj [("marketingPreference", .str (parsePreference
             (jsStrOrNull (properties.bind (fun pr => pr.getField "preference")))))])])

def corsHeaders : List (String × String) :=
  [("Access-Control-Allow-Origin", "*"),
   ("Access-Control-Allow-Methods", "GET, POST, PATCH, OPTIONS"),
   ("Access-Control-Allow-Headers", "Content-Type"),
   ("Content-Type", "application/json")]

def handler (req : Request) (env : Env) (fetch : String → KResponse) : HResult :=
  if req.method = "OPTIONS" then { status := 200, headers := corsHeaders }
  else if req.method = "GET" then
    if !(truthy req.query.email) && !(truthy req.query.shopifyId) then
      { status := 400, headers := corsHeaders,
        body := some [("success", .bool false), ("error", .str "email or shopifyId required")] }
    else if req.query.debug == some "true" && truthy req.query.email then
      let email := (req.query.email).getD ""
      let filter := "equals(email,\"" ++ email ++ "\")"
      let url := KLAVIYO_API_BASE ++ "/profiles/?filter=" ++ encodeURIComponent filter ++
        "&additional-fields[profile]=subscriptions"
      let r := fetch url
      match r.json with
      | none =>
        { status := 500, headers := corsHeaders,
          body := some [("debug", .bool true), ("error", .str jsonParseMsg)],
          calls := [url] }
      | some rawData =>
        { status := 200, headers := corsHeaders,
          body := some [("debug", .bool true),
                        ("apiKeySet", .bool (truthy env.privateKey)),
                        ("apiKeyPrefix", .str
                          ((match env.privateKey with
                            | some s => s.take 6
                            | none => "undefined") ++ "...")),
                        ("filterUsed", .str filter),
                        ("httpStatus", .num r.status),
                        ("rawResponse", rawData)],
          calls := [url] }
    else
      let pr := if truthy req.query.email
        then getProfileByEmail fetch ((req.query.email).getD "")
        else getProfileByShopifyId fetch ((req.query.shopifyId).getD "")
      match pr with
      | (.error m, tr) =>
        { status := 500, headers := corsHeaders,
          body := some [("success", .bool false), ("error", .str m)], calls := tr }
      | (.ok profile, tr) =>
        if !profile.truthy then
          { status := 404, headers := corsHeaders,
            body := some [("success", .bool false), ("error", .str "Profile not found"),
                          ("data", .null)],
            calls := tr }
        else
          { status := 200, headers := corsHeaders,
            body := some [("success", .bool true),
                          ("data", formatProfileResponse profile)],
            calls := tr }
  else if req.method = "POST" then
    if !(truthy req.body.email) then
      { status := 400, headers := corsHeaders,
        body := some [("success", .bool false), ("error", .str "Email is required")] }
    else
      match createOrUpdateProfile fetch with
      | (.error m, tr) =>
        { status := 500, headers := corsHeaders,
          body := some [("success", .bool false), ("error", .str m)], calls := tr }
      | (.ok _, tr1) =>
        match getProfileByEmail fetch ((req.body.email).getD "") with
        | (.error m, tr2) =>
          { status := 500, headers := corsHeaders,
            body := some [("success", .bool false), ("error", .str m)],
            calls := tr1 ++ tr2 }
        | (.ok updated, tr2) =>
          { status := 200, headers := corsHeaders,
            body := some [("success", .bool true),
                          ("data", formatProfileResponse updated)],
            calls := tr1 ++ tr2 }
  else if req.method = "PATCH" then
    if !(truthy req.body.email) && !(truthy req.body.shopifyId) then
      { status := 400, headers := corsHeaders,
        body := some [("success", .bool false), ("error", .str "email or shopifyId required")] }
    else
      let pr := if truthy req.body.email
        then getProfileByEmail fetch ((req.body.email).getD "")
        else getProfileByShopifyId fetch ((req.body.shopifyId).getD "")
      match pr with
      | (.error m, tr) =>
        { status := 500, headers := corsHeaders,
          body := some [("success", .bool false), ("error", .str m)], calls := tr }
      | (.ok profile, tr1) =>
        if !profile.truthy then
          { status := 404, headers := corsHeaders,
            body := some [("success", .bool false), ("error", .str "Profile not found")],
            calls := tr1 }
        else
          match updateProfile fetch (jvalTemplate (profile.getField "id")) with
          | (.error m, tr2) =>
            { status := 500, headers := corsHeaders,
              body := some [("success", .bool false), ("error", .str m)],
              calls := tr1 ++ tr2 }
          | (.ok _, tr2) =>
            match getProfileByEmail fetch
                (jvalTemplate ((profile.getField "attributes").bind
                  (fun a => a.getField "email"))) with
            | (.error m, tr3) =>
              { status := 500, headers := corsHeaders,
                body := some [("success", .bool false), ("error", .str m)],
                calls := tr1 ++ tr2 ++ tr3 }
            | (.ok updated, tr3) =>
              { status := 200, headers := corsHeaders,
                body := some [("success", .bool true),
                              ("data", formatProfileResponse updated)],
                calls := tr1 ++ tr2 ++ tr3 }
  else
    { status := 405, headers := corsHeaders,
      body := some [("success", .bool false), ("error", .str "Method not allowed")] }

end ProfileApi

/-- The `success` field of a handler's JSON response body. -/
def successVal (r : HResult) : Option JVal :=
  r.body.bind (fun b => b.lookup "success")

/-- The `error` field of a handler's JSON response body. -/
def errorVal (r : HResult) : Option JVal :=
  r.body.bind (fun b => b.lookup "error")

/-- The `data` field of a handler's JSON response body. -/
def dataVal (r : HResult) : Option JVal :=
  r.body.bind (fun b => b.lookup "data")

/-- A response envelope is well-formed when its JSON body (if any) carries a
boolean `success` field. -/
def successIsBool (r : HResult) : Bool :=
  match r.body with
  | none => true
  | some b =>
    match b.lookup "success" with
    | some (.bool _) => true
    | _ => false

/-- The handler set the permissive CORS origin header. -/
def hasCORS (r : HResult) : Bool :=
  r.headers.contains ("Access-Control-Allow-Origin", "*")

/-- A fully populated environment, as on a configured deployment. -/
def env0 : Env :=
  { privateKey := some "pk_test123456", publicKey := some "AbCdEf", listId := some "Y6nRLr" }

/-- A downstream 500 response whose JSON body carries one error with the
given `detail`. -/
def errResp (d : String) : KResponse :=
  { status := 500, contentType := some "application/vnd.api+json",
    statusText := "Internal Server Error",
    json := some (.obj [("errors", .arr [.obj [("detail", .str d)]])]) }

/-- A downstream 200 response with an empty `data` collection (the filter
matched no profile). -/
def emptyDataResp : KResponse :=
  { status := 200, contentType := some "application/json",
    json := some (.obj [("data", .arr [])]) }

/-- A downstream 200 response whose `data` collection holds one profile. -/
def okProfileResp (p : JVal) : KResponse :=
  { status := 200, contentType := some "application/json",
    json := some (.obj [("data", .arr [p])]) }

def sampleProfile : JVal := .obj [("id", .str "01ABCDE")]

/-- A downstream 202 response that nevertheless carries an
`application/json` content type and a JSON body. -/
def accepted202Resp : KResponse :=
  { status := 202, contentType := some "application/json",
    json := some (.obj [("data", .arr [])]) }

/-- A POST request carrying a well-formed email. -/
def postEmailReq : Request :=
  { method := "POST", body := { email := some "user@example.com" } }

/-- A GET request carrying an email query parameter. -/
def getEmailReq : Request :=
  { method := "GET", query := { email := some "user@example.com" } }

/-- A bare GET request. -/
def getReq : Request := { method := "GET" }

/-- A POST request with an empty body. -/
def emptyPostReq : Request := { method := "POST" }

/-- A GET request for a profile that does not exist downstream. -/
def ghostGetReq : Request :=
  { method := "GET", query := { email := some "ghost@example.com" } }

/-- A downstream oracle on which every profile filter matches nothing. -/
def noProfileFetch : String → KResponse := fun _ => emptyDataResp

/-- A debug-mode GET request to the profile endpoint. -/
def debugReq : Request :=
  { method := "GET",
    query := { email := some "user@example.com", debug := some "true" } }

/-- The first URL `ProfileApi.getProfileByShopifyId` queries (external-id
filter). -/
def extUrl (sid : String) : String :=
  KLAVIYO_API_BASE ++ "/profiles/?filter=" ++
    encodeURIComponent ("equals(external_id,\"shopify_" ++ sid ++ "\")") ++
    "&additional-fields[profile]=subscriptions"

/-- The fallback URL `ProfileApi.getProfileByShopifyId` queries
(`properties.shopify_customer_id` filter). -/
def propUrl (sid : String) : String :=
  KLAVIYO_API_BASE ++ "/profiles/?filter=" ++
    encodeURIComponent ("equals(properties.shopify_customer_id,\"" ++ sid ++ "\")") ++
    "&additional-fields[profile]=subscriptions"

/-- C1: Preference round-trip.  For each of the four valid UI values,
encoding with `PREFERENCE_MAP` and parsing back with `parsePreference`
returns the same value; the stored string for `both` contains both the
Menswear and the Womenswear tag. -/
theorem preference_round_trip :
    parsePreference (prefValue "menswear") = "menswear" ∧
    parsePreference (prefValue "womenswear") = "womenswear" ∧
    parsePreference (prefValue "both") = "both" ∧
    parsePreference (prefValue "no_preference") = "no_preference" ∧
    prefValue "both" = some "\"Menswear\",\"Womenswear\"" ∧
    strIncludes "\"Menswear\",\"Womenswear\"" "\"Menswear\"" = true ∧
    strIncludes "\"Menswear\",\"Womenswear\"" "\"Womenswear\"" = true := by
  decide

/-- C9: `parsePreference` is total with values among the four UI values; it
returns `no_preference` exactly when the input is null/empty or contains
neither tag, and `both` exactly when the input contains both tags. -/
theorem parsePreference_classification (raw : Option String) :
    (parsePreference raw = "menswear" ∨ parsePreference raw = "womenswear" ∨
      parsePreference raw = "both" ∨ parsePreference raw = "no_preference") ∧
    (parsePreference raw = "no_preference" ↔
      (raw = none ∨ ∃ s, raw = some s ∧
        (s = "" ∨ (strIncludes s "\"Menswear\"" = false ∧
                   strIncludes s "\"Womenswear\"" = false)))) ∧
    (parsePreference raw = "both" ↔
      ∃ s, raw = some s ∧ strIncludes s "\"Menswear\"" = true ∧
        strIncludes s "\"Womenswear\"" = true) := by
  cases raw with
  | none => simp [parsePreference]
  | some s =>
    by_cases hs : s = ""
    · subst hs
      refine ⟨Or.inr (Or.inr (Or.inr rfl)), ?_, ?_⟩
      · simp [parsePreference]
      · simp [parsePreference]
        decide
    · by_cases hm : strIncludes s "\"Menswear\"" = true
      · by_cases hw : strIncludes s "\"Womenswear\"" = true
        · refine ⟨Or.inr (Or.inr (Or.inl ?_)), ?_, ?_⟩ <;>
            simp [parsePreference, hs, hm, hw]
        · refine ⟨Or.inl ?_, ?_, ?_⟩ <;>
            simp [parsePreference, hs, hm, hw]
      · by_cases hw : strIncludes s "\"Womenswear\"" = true
        · refine ⟨Or.inr (Or.inl ?_), ?_, ?_⟩ <;>
            simp [parsePreference, hs, hm, hw]
        · refine ⟨Or.inr (Or.inr (Or.inr ?_)), ?_, ?_⟩ <;>
            simp [parsePreference, hs, hm, hw]

/-- C5 (amended): every Klaviyo request helper except the one in
`api/preferences.js` treats a downstream 202/204 unconditionally as success
with no body read (returning null, or the synthesized `{ accepted: true }`);
the `api/preferences.js` helper does so only when the response content type
is absent or not `application/*`. -/
theorem klaviyoRequest_202_204_no_body (r : KResponse)
    (h : r.status = 202 ∨ r.status = 204) :
    ProfileApi.klaviyoRequest r = .ok .null ∧
    PrefsB.klaviyoRequest r = .ok .null ∧
    SubscribeB.klaviyoRequest r = .ok .null ∧
    UnsubB.klaviyoRequest r = .ok .null ∧
    UnsubC.klaviyoRequest r = .ok .null ∧
    SubscribeA.klaviyoRequest r = .ok (.obj [("accepted", .bool true)]) ∧
    UnsubA.klaviyoRequest r = .ok (.obj [("accepted", .bool true)]) ∧
    ((∀ ct, r.contentType = some ct → strIncludes ct "application/" = false) →
      PrefsA.klaviyoRequest r = .ok .null) := by
  have hok : respOk r.status = true := by
    rcases h with h | h <;> simp [respOk, h]
  refine ⟨?_, ?_, ?_, ?_, ?_, ?_, ?_, ?_⟩
  · rcases h with h | h <;> simp [ProfileApi.klaviyoRequest, h]
  · rcases h with h | h <;> simp [PrefsB.klaviyoRequest, h]
  · rcases h with h | h <;> simp [SubscribeB.klaviyoRequest, h]
  · rcases h with h | h <;> simp [UnsubB.klaviyoRequest, h]
  · rcases h with h | h <;> simp [UnsubC.klaviyoRequest, h]
  · rcases h with h | h <;> simp [SubscribeA.klaviyoRequest, h]
  · rcases h with h | h <;> simp [UnsubA.klaviyoRequest, h]
  · intro hct
    unfold PrefsA.klaviyoRequest
    cases hc : r.contentType with
    | none => simp [hc, hok]
    | some ct => simp [hc, hok, hct ct hc]

/-- Witness for C5 (amended) at a concrete 202 response without a JSON
content type. -/
theorem klaviyoRequest_202_204_no_body_witness :
    PrefsA.klaviyoRequest { status := 202 } = .ok .null :=
  (klaviyoRequest_202_204_no_body { status := 202 } (Or.inl rfl)).2.2.2.2.2.2.2
    (by intro ct hct; cases hct)

/-- C5 counterexample: the `api/preferences.js` helper, given a 202 response
with an `application/json` content type, reads and returns the response body
instead of treating the response as success-with-no-body. -/
theorem prefsA_klaviyoRequest_202_reads_body :
    PrefsA.klaviyoRequest accepted202Resp = .ok (.obj [("data", .arr [])]) ∧
    PrefsA.klaviyoRequest accepted202Resp ≠ .ok .null := by
  constructor
  · rfl
  · intro hc
    have h2 : (JVal.obj [("data", .arr [])]) = JVal.null := by
      have h1 : PrefsA.klaviyoRequest accepted202Resp = .ok (.obj [("data", .arr [])]) := rfl
      exact Except.ok.inj (h1.symm.trans hc)
    exact JVal.noConfusion h2

/-- C8: `ProfileApi.getProfileByShopifyId` first queries profiles filtered
by `external_id = "shopify_<id>"`; if that query yields a profile it is
returned and no second query happens, otherwise exactly one more query is
made with the `properties.shopify_customer_id` filter, returning its first
match or null; a failure of the first query propagates. -/
theorem getProfileByShopifyId_fallback (fetch : String → KResponse) (sid : String) :
    (∀ m, ProfileApi.klaviyoRequest (fetch (extUrl sid)) = .error m →
      ProfileApi.getProfileByShopifyId fetch sid = (.error m, [extUrl sid])) ∧
    (∀ d p, ProfileApi.klaviyoRequest (fetch (extUrl sid)) = .ok d →
      jsTruthyOpt (dataHead d) = some p →
      ProfileApi.getProfileByShopifyId fetch sid = (.ok p, [extUrl sid])) ∧
    (∀ d, ProfileApi.klaviyoRequest (fetch (extUrl sid)) = .ok d →
      jsTruthyOpt (dataHead d) = none →
      ProfileApi.getProfileByShopifyId fetch sid =
        ((ProfileApi.klaviyoRequest (fetch (propUrl sid))).map
          (fun d2 => jsOrNullJ (dataHead d2)),
         [extUrl sid, propUrl sid])) := by
  have heq : ProfileApi.getProfileByShopifyId fetch sid =
      match ProfileApi.klaviyoRequest (fetch (extUrl sid)) with
      | .error m => (.error m, [extUrl sid])
      | .ok d =>
        match jsTruthyOpt (dataHead d) with
        | some p => (.ok p, [extUrl sid])
        | none =>
          ((ProfileApi.klaviyoRequest (fetch (propUrl sid))).map
            (fun d2 => jsOrNullJ (dataHead d2)),
           [extUrl sid, propUrl sid]) := rfl
  refine ⟨?_, ?_, ?_⟩
  · intro m hm
    rw [heq, hm]
  · intro d p hd hp
    rw [heq, hd]
    simp [hp]
  · intro d hd hp
    rw [heq, hd]
    simp [hp]

/-- Witness for C8 at a concrete oracle whose external-id query hits. -/
theorem getProfileByShopifyId_fallback_witness :
    ProfileApi.getProfileByShopifyId (fun _ => okProfileResp sampleProfile) "777" =
      (.ok sampleProfile, [extUrl "777"]) :=
  (getProfileByShopifyId_fallback (fun _ => okProfileResp sampleProfile) "777").2.1
    (.obj [("data", .arr [sampleProfile])]) sampleProfile rfl rfl

/-- C10: both subscribe handler variants reject a present email that fails
the regex `^[^\s@]+@[^\s@]+\.[^\s@]+$` with HTTP 400 and error
`Invalid email format`, without any downstream call. -/
theorem subscribe_invalid_email_format (req : Request) (env : Env)
    (fetch : String → KResponse) (e : String)
    (hm : req.method = "POST") (he : req.body.email = some e) (hne : e ≠ "")
    (hre : emailRegexTest e = false) :
    (SubscribeA.handler req env fetch).status = 400 ∧
    errorVal (SubscribeA.handler req env fetch) = some (.str "Invalid email format") ∧
    (SubscribeA.handler req env fetch).calls = [] ∧
    (SubscribeB.handler req env fetch).status = 400 ∧
    errorVal (SubscribeB.handler req env fetch) = some (.str "Invalid email format") ∧
    (SubscribeB.handler req env fetch).calls = [] := by
  have ht : truthy (some e) = true := by simp [truthy, hne]
  refine ⟨?_, ?_, ?_, ?_, ?_, ?_⟩ <;>
    simp [SubscribeA.handler, SubscribeB.handler, hm, ht, he, hre, errorVal, List.lookup]

/-- Witness for C10 at a concrete malformed email. -/
theorem subscribe_invalid_email_format_witness :
    (SubscribeB.handler { method := "POST", body := { email := some "plainaddress" } }
      env0 (fun _ => emptyDataResp)).status = 400 :=
  (subscribe_invalid_email_format
    { method := "POST", body := { email := some "plainaddress" } }
    env0 (fun _ => emptyDataResp) "plainaddress" rfl rfl (by decide) (by decide)).2.2.2.1

/-- A string with a nonempty left part stays nonempty under append. -/
theorem append_ne_empty_of_left (a b : String) (ha : a.data ≠ []) : a ++ b ≠ "" := by
  intro h
  have h2 : (a ++ b).data = ("" : String).data := congrArg String.data h
  rw [String.data_append] at h2
  rcases List.append_eq_nil.mp (by simpa using h2) with ⟨h3, _⟩
  exact ha h3

/-- Evaluation of the detail-only helpers on `errResp d`. -/
theorem krPlain_errResp (d : String) (hd : d ≠ "") :
    SubscribeB.klaviyoRequest (errResp d) = .error d ∧
    UnsubB.klaviyoRequest (errResp d) = .error d ∧
    UnsubC.klaviyoRequest (errResp d) = .error d ∧
    ProfileApi.klaviyoRequest (errResp d) = .error d ∧
    PrefsB.klaviyoRequest (errResp d) = .error d := by
  have hct : strIncludes "application/vnd.api+json" "application/" = true := by decide
  refine ⟨?_, ?_, ?_, ?_, ?_⟩ <;>
    simp [SubscribeB.klaviyoRequest, UnsubB.klaviyoRequest, UnsubC.klaviyoRequest,
      ProfileApi.klaviyoRequest, PrefsB.klaviyoRequest, errResp, respOk, hct,
      firstError, JVal.getField, JVal.getIdx, List.lookup, jvalOptStr, jsOrStr, hd]

/-- Evaluation of the detail-or-title helpers on `errResp d`. -/
theorem krPrefixed_errResp (d : String) (hd : d ≠ "") :
    SubscribeA.klaviyoRequest (errResp d) = .error ("Klaviyo API error: " ++ d) ∧
    UnsubA.klaviyoRequest (errResp d) = .error ("Klaviyo API error: " ++ d) ∧
    PrefsA.klaviyoRequest (errResp d) = .error ("Klaviyo API error: " ++ d) := by
  have hct : strIncludes "application/vnd.api+json" "application/" = true := by decide
  refine ⟨?_, ?_, ?_⟩ <;>
    simp [SubscribeA.klaviyoRequest, UnsubA.klaviyoRequest, PrefsA.klaviyoRequest,
      errResp, respOk, hct, firstError, JVal.getField, JVal.getIdx, List.lookup,
      jvalOptStr, jsOrStr, hd]

/-- C2 counterexample: on a downstream 500 response whose body carries an
error detail, the lists handler does not respond 500 with
`{ success: false, error }` — it responds 200 with `success: true`, because
`api/lists.js` never inspects the downstream status. -/
theorem lists_ignores_downstream_error :
    (ListsApi.handler getReq env0 (fun _ => errResp "boom")).status = 200 ∧
    successVal (ListsApi.handler getReq env0 (fun _ => errResp "boom")) =
      some (.bool true) := by
  constructor <;> rfl

/-- C2 (amended): every handler that reaches Klaviyo through a
`klaviyoRequest` helper converts a downstream non-2xx JSON response into a
thrown error carrying the first error detail (the `api/health.js`-style
helpers prefix it with `Klaviyo API error: `), catches it, and responds 500
with `{ success: false, error }`; the lists handler is the exception: it
never checks the downstream status and responds 200 with `success: true`
(the health handler performs no downstream call). -/
theorem downstream_error_policy (d : String) (hd : d ≠ "") (env : Env) :
    (SubscribeB.handler postEmailReq env (fun _ => errResp d)).status = 500 ∧
    successVal (SubscribeB.handler postEmailReq env (fun _ => errResp d)) =
      some (.bool false) ∧
    errorVal (SubscribeB.handler postEmailReq env (fun _ => errResp d)) =
      some (.str d) ∧
    (SubscribeA.handler postEmailReq env (fun _ => errResp d)).status = 500 ∧
    errorVal (SubscribeA.handler postEmailReq env (fun _ => errResp d)) =
      some (.str ("Klaviyo API error: " ++ d)) ∧
    (UnsubA.handler postEmailReq env (fun _ => errResp d)).status = 500 ∧
    errorVal (UnsubA.handler postEmailReq env (fun _ => errResp d)) =
      some (.str ("Klaviyo API error: " ++ d)) ∧
    (UnsubB.handler postEmailReq env (fun _ => errResp d)).status = 500 ∧
    errorVal (UnsubB.handler postEmailReq env (fun _ => errResp d)) =
      some (.str d) ∧
    (UnsubC.handler postEmailReq env (fun _ => errResp d)).status = 500 ∧
    errorVal (UnsubC.handler postEmailReq env (fun _ => errResp d)) =
      some (.str d) ∧
    (PrefsA.handler getEmailReq env (fun _ => errResp d)).status = 500 ∧
    errorVal (PrefsA.handler getEmailReq env (fun _ => errResp d)) =
      some (.str ("Klaviyo API error: " ++ d)) ∧
    (PrefsB.handler getEmailReq env (fun _ => errResp d)).status = 500 ∧
    errorVal (PrefsB.handler getEmailReq env (fun _ => errResp d)) =
      some (.str d) ∧
    (ProfileApi.handler getEmailReq env (fun _ => errResp d)).status = 500 ∧
    errorVal (ProfileApi.handler getEmailReq env (fun _ => errResp d)) =
      some (.str d) ∧
    (ListsApi.handler getReq env (fun _ => errResp d)).status = 200 ∧
    successVal (ListsApi.handler getReq env (fun _ => errResp d)) =
      some (.bool true) := by
  obtain ⟨kb, kub, kuc, kpr, kpb⟩ := krPlain_errResp d hd
  obtain ⟨ka, kua, kpa⟩ := krPrefixed_errResp d hd
  have hne : ("Klaviyo API error: " ++ d) ≠ "" :=
    append_ne_empty_of_left "Klaviyo API error: " d (by decide)
  have hre : emailRegexTest "user@example.com" = true := by decide
  have ht : truthy (some "user@example.com") = true := by decide
  have hj : (errResp d).json =
      some (.obj [("errors", .arr [.obj [("detail", .str d)]])]) := rfl
  refine ⟨?_, ?_, ?_, ?_, ?_, ?_, ?_, ?_, ?_, ?_, ?_, ?_, ?_, ?_, ?_, ?_, ?_, ?_, ?_⟩ <;>
    simp [SubscribeB.handler, SubscribeA.handler, UnsubA.handler, UnsubB.handler,
      UnsubC.handler, PrefsA.handler, PrefsB.handler, ProfileApi.handler,
      ListsApi.handler, SubscribeB.subscribeProfile, SubscribeA.subscribeProfile,
      UnsubA.unsubscribeProfile, UnsubC.getProfileIdByEmail,
      PrefsA.getProfileByEmail, PrefsB.getProfileByEmail, ProfileApi.getProfileByEmail,
      postEmailReq, getEmailReq, getReq, ht, hre, kb, kub, kuc, kpr, kpb, ka, kua, kpa,
      jsOrStr, hne, hj, errorVal, successVal, List.lookup, Except.map]

/-- Witness for C2 (amended) at a concrete error detail. -/
theorem downstream_error_policy_witness :
    (SubscribeB.handler postEmailReq env0 (fun _ => errResp "boom")).status = 500 :=
  (downstream_error_policy "boom" (by decide) env0).1

/-- C6 counterexample: `api/unsubscribe.js` answers a POST with no email
with HTTP 500 (the missing input is thrown and caught), not 400. -/
theorem unsubC_missing_email_500 :
    (UnsubC.handler emptyPostReq env0 noProfileFetch).status = 500 ∧
    (UnsubC.handler emptyPostReq env0 noProfileFetch).status ≠ 400 ∧
    errorVal (UnsubC.handler emptyPostReq env0 noProfileFetch) =
      some (.str "Email required") ∧
    (UnsubC.handler emptyPostReq env0 noProfileFetch).calls = [] := by
  refine ⟨rfl, by decide, rfl, rfl⟩

/-- C6 (amended): on a request missing its required input every handler
responds without any downstream call; all respond 400 except
`api/unsubscribe.js`, which responds 500 with error `Email required`. -/
theorem missing_input_400_no_call (req : Request) (env : Env)
    (fetch : String → KResponse) :
    (req.method = "POST" → truthy req.body.email = false →
      (SubscribeA.handler req env fetch).status = 400 ∧
      (SubscribeA.handler req env fetch).calls = [] ∧
      (SubscribeB.handler req env fetch).status = 400 ∧
      (SubscribeB.handler req env fetch).calls = [] ∧
      (UnsubA.handler req env fetch).status = 400 ∧
      (UnsubA.handler req env fetch).calls = [] ∧
      (UnsubB.handler req env fetch).status = 400 ∧
      (UnsubB.handler req env fetch).calls = [] ∧
      (ProfileApi.handler req env fetch).status = 400 ∧
      (ProfileApi.handler req env fetch).calls = [] ∧
      (UnsubC.handler req env fetch).status = 500 ∧
      errorVal (UnsubC.handler req env fetch) = some (.str "Email required") ∧
      (UnsubC.handler req env fetch).calls = []) ∧
    (req.method = "POST" → truthy req.body.email = false →
      truthy req.body.shopifyId = false →
      (PrefsA.handler req env fetch).status = 400 ∧
      (PrefsA.handler req env fetch).calls = [] ∧
      (PrefsB.handler req env fetch).status = 400 ∧
      (PrefsB.handler req env fetch).calls = []) ∧
    (req.method = "GET" → truthy req.query.email = false →
      truthy req.query.shopifyId = false →
      (ProfileApi.handler req env fetch).status = 400 ∧
      (ProfileApi.handler req env fetch).calls = [] ∧
      (PrefsA.handler req env fetch).status = 400 ∧
      (PrefsA.handler req env fetch).calls = []) ∧
    (req.method = "GET" → truthy req.query.email = false →
      (PrefsB.handler req env fetch).status = 400 ∧
      (PrefsB.handler req env fetch).calls = []) ∧
    (req.method = "PATCH" → truthy req.body.email = false →
      truthy req.body.shopifyId = false →
      (ProfileApi.handler req env fetch).status = 400 ∧
      (ProfileApi.handler req env fetch).calls = []) := by
  refine ⟨?_, ?_, ?_, ?_, ?_⟩ <;> intro hm h1 <;>
  first
  | (intro h2 <;>
     simp [SubscribeA.handler, SubscribeB.handler, UnsubA.handler, UnsubB.handler,
       UnsubC.handler, ProfileApi.handler, PrefsA.handler, PrefsB.handler,
       hm, h1, h2, errorVal, List.lookup])
  | simp [SubscribeA.handler, SubscribeB.handler, UnsubA.handler, UnsubB.handler,
      UnsubC.handler, ProfileApi.handler, PrefsA.handler, PrefsB.handler,
      hm, h1, errorVal, List.lookup]

/-- Witness for C6 (amended) at a POST with an empty body. -/
theorem missing_input_400_no_call_witness :
    (SubscribeB.handler emptyPostReq env0 noProfileFetch).status = 400 :=
  ((missing_input_400_no_call emptyPostReq env0 noProfileFetch).1 rfl rfl).2.2.1

/-- C7 counterexample: a GET to the preferences endpoint identifying a
profile that does not exist downstream is answered with 200 and default
preferences, not with 404. -/
theorem prefsA_unknown_profile_not_404 :
    (PrefsA.handler ghostGetReq env0 noProfileFetch).status = 200 ∧
    (PrefsA.handler ghostGetReq env0 noProfileFetch).status ≠ 404 ∧
    dataVal (PrefsA.handler ghostGetReq env0 noProfileFetch) =
      some PrefsA.newProfileData := by
  refine ⟨rfl, by decide, rfl⟩

/-- C7 (amended): when the profile does not exist downstream,
`api/profile.js` GET and PATCH respond 404 `Profile not found`, and the
preferences POST endpoints respond 404 when no email is supplied to create
the profile; the preferences GET endpoints instead respond 200 with default
preferences, and `api/unsubscribe.js` responds 500 with error
`Profile not found`. -/
theorem profile_not_found_behavior (env : Env) (e sid : String)
    (he : e ≠ "") (hsid : sid ≠ "") :
    ((ProfileApi.handler { method := "GET", query := { email := some e } }
        env noProfileFetch).status = 404 ∧
     errorVal (ProfileApi.handler { method := "GET", query := { email := some e } }
        env noProfileFetch) = some (.str "Profile not found")) ∧
    (ProfileApi.handler { method := "PATCH", body := { email := some e } }
        env noProfileFetch).status = 404 ∧
    ((PrefsA.handler { method := "POST", body := { shopifyId := some sid } }
        env noProfileFetch).status = 404 ∧
     errorVal (PrefsA.handler { method := "POST", body := { shopifyId := some sid } }
        env noProfileFetch) =
       some (.str "Profile not found. Email is required to create a new profile.")) ∧
    ((PrefsB.handler { method := "POST", body := { shopifyId := some sid } }
        env noProfileFetch).status = 404 ∧
     errorVal (PrefsB.handler { method := "POST", body := { shopifyId := some sid } }
        env noProfileFetch) = some (.str "Profile not found")) ∧
    ((PrefsA.handler { method := "GET", query := { email := some e } }
        env noProfileFetch).status = 200 ∧
     dataVal (PrefsA.handler { method := "GET", query := { email := some e } }
        env noProfileFetch) = some PrefsA.newProfileData) ∧
    (PrefsB.handler { method := "GET", query := { email := some e } }
        env noProfileFetch).status = 200 ∧
    ((UnsubC.handler { method := "POST", body := { email := some e } }
        env noProfileFetch).status = 500 ∧
     errorVal (UnsubC.handler { method := "POST", body := { email := some e } }
        env noProfileFetch) = some (.str "Profile not found")) := by
  have hte : truthy (some e) = true := by simp [truthy, he]
  have hts : truthy (some sid) = true := by simp [truthy, hsid]
  have kpr : ProfileApi.klaviyoRequest emptyDataResp = .ok (.obj [("data", .arr [])]) := rfl
  have kpa : PrefsA.klaviyoRequest emptyDataResp = .ok (.obj [("data", .arr [])]) := rfl
  have kpb : PrefsB.klaviyoRequest emptyDataResp = .ok (.obj [("data", .arr [])]) := rfl
  have kuc : UnsubC.klaviyoRequest emptyDataResp = .ok (.obj [("data", .arr [])]) := rfl
  refine ⟨⟨?_, ?_⟩, ?_, ⟨?_, ?_⟩, ⟨?_, ?_⟩, ⟨?_, ?_⟩, ?_, ⟨?_, ?_⟩⟩ <;>
    simp [ProfileApi.handler, PrefsA.handler, PrefsB.handler, UnsubC.handler,
      ProfileApi.getProfileByEmail, ProfileApi.getProfileByShopifyId,
      PrefsA.getProfileByEmail, PrefsA.getProfileByShopifyId,
      PrefsB.getProfileByEmail, UnsubC.getProfileIdByEmail,
      noProfileFetch, kpr, kpa, kpb, kuc, hte, hts, truthy, he, hsid,
      Except.map, dataHead, jsOrNullJ, jsTruthyOpt, JVal.getField, JVal.getIdx,
      JVal.truthy, errorVal, dataVal, List.lookup]

/-- Witness for C7 (amended) at concrete inputs. -/
theorem profile_not_found_behavior_witness :
    (ProfileApi.handler { method := "GET", query := { email := some "ghost@example.com" } }
        env0 noProfileFetch).status = 404 :=
  (profile_not_found_behavior env0 "ghost@example.com" "777"
    (by decide) (by decide)).1.1

/-- C4 counterexample: `api/unsubscribe.js` sets no headers at all (no
`Access-Control-Allow-Origin`) and answers an OPTIONS request with 405. -/
theorem unsubC_no_cors_options_405 :
    (UnsubC.handler { method := "OPTIONS" } env0 noProfileFetch).status = 405 ∧
    (UnsubC.handler { method := "OPTIONS" } env0 noProfileFetch).headers = [] ∧
    hasCORS (UnsubC.handler { method := "OPTIONS" } env0 noProfileFetch) = false := by
  refine ⟨rfl, rfl, rfl⟩

/-- C4 (amended): every handler except `api/unsubscribe.js` sets
`Access-Control-Allow-Origin: *` on every request and answers OPTIONS with
200; `api/unsubscribe.js` sets no headers on any request and answers
OPTIONS with 405. -/
theorem cors_headers_and_options (req : Request) (env : Env)
    (fetch : String → KResponse) (now : String) :
    hasCORS (HealthApi.handler req env now) = true ∧
    hasCORS (ListsApi.handler req env fetch) = true ∧
    hasCORS (SubscribeA.handler req env fetch) = true ∧
    hasCORS (SubscribeB.handler req env fetch) = true ∧
    hasCORS (UnsubA.handler req env fetch) = true ∧
    hasCORS (UnsubB.handler req env fetch) = true ∧
    hasCORS (PrefsA.handler req env fetch) = true ∧
    hasCORS (PrefsB.handler req env fetch) = true ∧
    hasCORS (ProfileApi.handler req env fetch) = true ∧
    (UnsubC.handler req env fetch).headers = [] ∧
    (req.method = "OPTIONS" →
      (HealthApi.handler req env now).status = 200 ∧
      (ListsApi.handler req env fetch).status = 200 ∧
      (SubscribeA.handler req env fetch).status = 200 ∧
      (SubscribeB.handler req env fetch).status = 200 ∧
      (UnsubA.handler req env fetch).status = 200 ∧
      (UnsubB.handler req env fetch).status = 200 ∧
      (PrefsA.handler req env fetch).status = 200 ∧
      (PrefsB.handler req env fetch).status = 200 ∧
      (ProfileApi.handler req env fetch).status = 200 ∧
      (UnsubC.handler req env fetch).status = 405) := by
  refine ⟨?_, ?_, ?_, ?_, ?_, ?_, ?_, ?_, ?_, ?_, ?_⟩
  · unfold HealthApi.handler
    dsimp only
    repeat' split
    all_goals rfl
  · unfold ListsApi.handler
    dsimp only
    repeat' split
    all_goals rfl
  · unfold SubscribeA.handler SubscribeA.subscribeProfile
    dsimp only
    repeat' split
    all_goals rfl
  · unfold SubscribeB.handler SubscribeB.subscribeProfile
    dsimp only
    repeat' split
    all_goals rfl
  · unfold UnsubA.handler UnsubA.unsubscribeProfile
    dsimp only
    repeat' split
    all_goals rfl
  · unfold UnsubB.handler
    dsimp only
    repeat' split
    all_goals rfl
  · unfold PrefsA.handler
    dsimp only
    repeat' split
    all_goals rfl
  · unfold PrefsB.handler
    dsimp only
    repeat' split
    all_goals rfl
  · unfold ProfileApi.handler
    dsimp only
    repeat' split
    all_goals rfl
  · unfold UnsubC.handler
    dsimp only
    repeat' split
    all_goals rfl
  · intro h
    refine ⟨?_, ?_, ?_, ?_, ?_, ?_, ?_, ?_, ?_, ?_⟩ <;>
      simp [HealthApi.handler, ListsApi.handler, SubscribeA.handler,
        SubscribeB.handler, UnsubA.handler, UnsubB.handler, PrefsA.handler,
        PrefsB.handler, ProfileApi.handler, UnsubC.handler, h]

/-- Witness for C4 (amended) at a concrete OPTIONS request. -/
theorem cors_headers_and_options_witness :
    (HealthApi.handler { method := "OPTIONS" } env0 "ts").status = 200 :=
  ((cors_headers_and_options { method := "OPTIONS" } env0 noProfileFetch
    "ts").2.2.2.2.2.2.2.2.2.2 rfl).1

/-- C3 counterexample: the debug mode of `api/profile.js` (GET with
`debug=true` and an email) returns a JSON body with no `success` field. -/
theorem profile_debug_no_success_field :
    (ProfileApi.handler debugReq env0 noProfileFetch).body ≠ none ∧
    successVal (ProfileApi.handler debugReq env0 noProfileFetch) = none ∧
    successIsBool (ProfileApi.handler debugReq env0 noProfileFetch) = false := by
  refine ⟨fun h => Option.noConfusion h, rfl, rfl⟩

set_option maxHeartbeats 4000000 in
/-- C3 (amended): every JSON response body of every endpoint carries a
boolean `success` field (`data`/`error` being optional extras), with the
sole exception of the debug mode of `api/profile.js` (GET with `debug=true`
and an email), whose bodies carry `debug` instead of `success`. -/
theorem response_envelope (req : Request) (env : Env)
    (fetch : String → KResponse) (now : String) :
    successIsBool (HealthApi.handler req env now) = true ∧
    successIsBool (ListsApi.handler req env fetch) = true ∧
    successIsBool (SubscribeA.handler req env fetch) = true ∧
    successIsBool (SubscribeB.handler req env fetch) = true ∧
    successIsBool (UnsubA.handler req env fetch) = true ∧
    successIsBool (UnsubB.handler req env fetch) = true ∧
    successIsBool (UnsubC.handler req env fetch) = true ∧
    successIsBool (PrefsA.handler req env fetch) = true ∧
    successIsBool (PrefsB.handler req env fetch) = true ∧
    (¬(req.method = "GET" ∧ req.query.debug = some "true" ∧
        truthy req.query.email = true) →
      successIsBool (ProfileApi.handler req env fetch) = true) := by
  refine ⟨?_, ?_, ?_, ?_, ?_, ?_, ?_, ?_, ?_, ?_⟩
  · unfold HealthApi.handler
    dsimp only
    repeat' split
    all_goals rfl
  · unfold ListsApi.handler
    dsimp only
    repeat' split
    all_goals rfl
  · unfold SubscribeA.handler SubscribeA.subscribeProfile
    dsimp only
    repeat' split
    all_goals rfl
  · unfold SubscribeB.handler SubscribeB.subscribeProfile
    dsimp only
    repeat' split
    all_goals rfl
  · unfold UnsubA.handler UnsubA.unsubscribeProfile
    dsimp only
    repeat' split
    all_goals rfl
  · unfold UnsubB.handler
    dsimp only
    repeat' split
    all_goals rfl
  · unfold UnsubC.handler UnsubC.getProfileIdByEmail
    dsimp only
    repeat' split
    all_goals rfl
  · unfold PrefsA.handler PrefsA.getProfileByEmail PrefsA.getProfileByShopifyId
      PrefsA.createProfileWithPreferences PrefsA.updateProfilePreferences
    dsimp only
    repeat' split
    all_goals rfl
  · unfold PrefsB.handler PrefsB.getProfileByEmail
      PrefsB.createProfileWithPreferences PrefsB.updateProfilePreferences
    dsimp only
    repeat' split
    all_goals rfl
  · intro hnd
    unfold ProfileApi.handler ProfileApi.getProfileByEmail
      ProfileApi.getProfileByShopifyId ProfileApi.createOrUpdateProfile
      ProfileApi.updateProfile
    dsimp only
    repeat' split
    all_goals first
      | rfl
      | simp_all

/-- Witness for C3 (amended) at a concrete non-debug request. -/
theorem response_envelope_witness :
    successIsBool (ProfileApi.handler getEmailReq env0 noProfileFetch) = true :=
  (response_envelope getEmailReq env0 noProfileFetch
    "ts").2.2.2.2.2.2.2.2.2 (by decide)
